import Mathlib

/-!
Verification of a userspace RFC-793 TCP core (passive open, sequence-number
validation with mod-2^32 wrap-around, handshake and teardown transitions,
outbound segment construction).

The Rust source is shallowly embedded: `u32` values are modelled as `Nat`
with explicit reduction modulo `2^32` wherever the source uses wrapping
arithmetic, fallible paths return `Option`, and paths on which the source
process aborts (a failed assertion or an `unreachable` arm) are modelled as
`none`.
-/

def U32 : Nat := 4294967296

inductive State where
  | SynRcvd
  | Estab
  | FinWait1
  | FinWait2
  | TimeWait
deriving DecidableEq

def State.is_synchronized : State → Bool
  | State.SynRcvd => false
  | State.Estab | State.FinWait1 | State.FinWait2 | State.TimeWait => true

/-- Send sequence space of the TCB (RFC 793 S3.2 F4). -/
structure SendSequenceSpace where
  una : Nat
  nxt : Nat
  wnd : Nat
  up : Bool
  wl1 : Nat
  wl2 : Nat
  iss : Nat
deriving DecidableEq

/-- Receive sequence space of the TCB (RFC 793 S3.2 F5). -/
structure RecvSequenceSpace where
  nxt : Nat
  wnd : Nat
  up : Bool
  irs : Nat
deriving DecidableEq

/-- The cached outbound TCP header template: the fields of the codec's
header value that the core reads or writes. -/
structure TcpHeader where
  source_port : Nat
  destination_port : Nat
  sequence_number : Nat
  acknowledgment_number : Nat
  syn : Bool
  ack : Bool
  fin : Bool
  rst : Bool
  window_size : Nat
  checksum : Nat
deriving DecidableEq

/-- The cached outbound IPv4 header template: source and destination
addresses as four-byte lists, the TTL, and the payload length field that
`set_payload_len` rewrites per emission. -/
structure Ipv4Header where
  source : List Nat
  destination : List Nat
  ttl : Nat
  payload_len : Nat
deriving DecidableEq

/-- A parsed inbound segment: the IPv4 and TCP header views plus the payload
slice, as the demultiplexer hands them to `accept` / `on_packet`. -/
structure SegmentIn where
  source : List Nat
  destination : List Nat
  source_port : Nat
  destination_port : Nat
  sequence_number : Nat
  acknowledgment_number : Nat
  window_size : Nat
  syn : Bool
  ack : Bool
  fin : Bool
  rst : Bool
  payload : List Nat
deriving DecidableEq

/-- One outbound IPv4+TCP segment as handed to the TUN adapter: the emitted
header values and the payload bytes actually written. -/
structure OutSegment where
  ip : Ipv4Header
  tcp : TcpHeader
  payload : List Nat
deriving DecidableEq

/-- Per-flow Transmission Control Block. -/
structure Connection where
  state : State
  send : SendSequenceSpace
  recv : RecvSequenceSpace
  ip : Ipv4Header
  tcp : TcpHeader
deriving DecidableEq

/-- Wrap-safe strict betweenness on the 32-bit circle, translated from
`is_between_wrapped` in `tcp.rs`. -/
def is_between_wrapped (start x e : Nat) : Bool :=
  if start = x then
    false
  else if start < x then
    !(decide (e ≥ start) && decide (e ≤ x))
  else
    decide (e < start) && decide (e > x)

def u16Bytes (n : Nat) : List Nat :=
  [n / 256 % 256, n % 256]

def u32Bytes (n : Nat) : List Nat :=
  [n / 16777216 % 256, n / 65536 % 256, n / 256 % 256, n % 256]

def flagsByte (t : TcpHeader) : Nat :=
  (if t.fin then 1 else 0) + (if t.syn then 2 else 0) +
    (if t.rst then 4 else 0) + (if t.ack then 16 else 0)

/-- Serialization of the 20-byte TCP header (no options, data offset 5) with
the checksum field zeroed, as fed to the checksum computation. -/
def tcpHeaderBytes (t : TcpHeader) : List Nat :=
  u16Bytes t.source_port ++ u16Bytes t.destination_port ++
    u32Bytes t.sequence_number ++ u32Bytes t.acknowledgment_number ++
    [80, flagsByte t] ++ u16Bytes t.window_size ++ [0, 0] ++ [0, 0]

/-- The IPv4 pseudo-header for the TCP checksum: source address,
destination address, a zero byte, protocol 6, and the 16-bit TCP length. -/
def pseudoHeaderBytes (ip : Ipv4Header) (tcpLength : Nat) : List Nat :=
  ip.source ++ ip.destination ++ [0, 6] ++ u16Bytes tcpLength

def bytesToWords : List Nat → List Nat
  | [] => []
  | [b] => [b * 256]
  | b1 :: b2 :: rest => (b1 * 256 + b2) :: bytesToWords rest

/-- One step of 16-bit one's-complement addition with end-around carry. -/
def onesAdd (a b : Nat) : Nat :=
  let s := a + b
  if s < 65536 then s else s % 65536 + s / 65536

def onesSum (words : List Nat) : Nat :=
  words.foldl onesAdd 0

def internetChecksum (bytes : List Nat) : Nat :=
  65535 - onesSum (bytesToWords bytes)

/-- Modelled from the spec: the header codec's `calc_checksum_ipv4`
(etherparse, external to this repository) computes the RFC-793 Internet
checksum over the IPv4 pseudo-header, the TCP header, and the payload slice
it is given. -/
def tcp_calc_checksum_ipv4 (ip : Ipv4Header) (t : TcpHeader) (payload : List Nat) : Nat :=
  internetChecksum
    (pseudoHeaderBytes ip (20 + payload.length) ++ tcpHeaderBytes t ++ payload)

def ipHeaderLen : Nat := 20

def tcpHeaderLen : Nat := 20

/-- The segment writer `Connection::write`: stamps `SND.NXT` / `RCV.NXT`
into the template, truncates the payload to the 1500-byte buffer, computes
the checksum (the source passes the empty slice as checksum payload),
serializes, and post-advances `SND.NXT` by the written payload length plus
one for each of SYN and FIN, clearing whichever of those flags was set.
Returns the updated connection and the emitted segment. -/
def writeSeg (c : Connection) (payload : List Nat) : Connection × OutSegment :=
  let tcp1 := { c.tcp with
    sequence_number := c.send.nxt
    acknowledgment_number := c.recv.nxt }
  let size := min 1500 (tcpHeaderLen + ipHeaderLen + payload.length)
  let ip1 := { c.ip with payload_len := size - ipHeaderLen }
  let tcp2 := { tcp1 with checksum := tcp_calc_checksum_ipv4 ip1 tcp1 [] }
  let payload_bytes := min (1500 - ipHeaderLen - tcpHeaderLen) payload.length
  let written := payload.take payload_bytes
  let nxt1 := (c.send.nxt + payload_bytes) % U32
  let nxt2 := if tcp2.syn then (nxt1 + 1) % U32 else nxt1
  let tcp3 := if tcp2.syn then { tcp2 with syn := false } else tcp2
  let nxt3 := if tcp3.fin then (nxt2 + 1) % U32 else nxt2
  let tcp4 := if tcp3.fin then { tcp3 with fin := false } else tcp3
  ( { c with send := { c.send with nxt := nxt3 }, ip := ip1, tcp := tcp4 },
    { ip := ip1, tcp := tcp2, payload := written } )

/-- Passive open `Connection::accept`: a SYN to an unknown quad creates a
fresh TCB in `SynRcvd` and answers with a SYN+ACK through the segment
writer; any other segment creates nothing. -/
def accept (s : SegmentIn) : Option (Connection × OutSegment) :=
  if !s.syn then
    none
  else
    let iss := 0
    let wnd := 10
    let c : Connection := {
      state := State.SynRcvd
      send := { iss := iss, una := iss, nxt := iss, wnd := wnd,
                up := false, wl1 := 0, wl2 := 0 }
      recv := { irs := s.sequence_number, nxt := (s.sequence_number + 1) % U32,
                wnd := s.window_size, up := false }
      tcp := { source_port := s.destination_port, destination_port := s.source_port,
               sequence_number := iss, acknowledgment_number := 0,
               syn := false, ack := false, fin := false, rst := false,
               window_size := wnd, checksum := 0 }
      ip := { source := s.destination, destination := s.source,
              ttl := 64, payload_len := 0 } }
    let c1 := { c with tcp := { c.tcp with syn := true, ack := true } }
    let r := writeSeg c1 []
    some (r.1, r.2)

/-- Logical segment length: payload bytes plus one for each of FIN and SYN. -/
def seg_len (s : SegmentIn) : Nat :=
  s.payload.length + (if s.fin then 1 else 0) + (if s.syn then 1 else 0)

/-- The sequence-number acceptance test at the top of
`Connection::on_packet` (the `okay` computation). -/
def segOkay (c : Connection) (s : SegmentIn) : Bool :=
  let seqn := s.sequence_number
  let slen := seg_len s
  let wend := (c.recv.nxt + c.recv.wnd) % U32
  if slen = 0 then
    if c.recv.wnd = 0 then
      if seqn ≠ c.recv.nxt then false else true
    else if !(is_between_wrapped ((c.recv.nxt + U32 - 1) % U32) seqn wend) then
      false
    else
      true
  else
    if c.recv.wnd = 0 then
      false
    else if !(is_between_wrapped ((c.recv.nxt + U32 - 1) % U32) seqn wend) &&
        !(is_between_wrapped ((c.recv.nxt + U32 - 1) % U32) ((seqn + (slen - 1)) % U32) wend) then
      false
    else
      true

/-- On acceptance, `on_packet` advances `RCV.NXT` to `seq + seg_len`. -/
def advanceRecv (c : Connection) (s : SegmentIn) : Connection :=
  { c with recv := { c.recv with nxt := (s.sequence_number + seg_len s) % U32 } }

/-- The `SynRcvd` arm of the ACK check: an acceptable ACK promotes the
connection to `Estab`; an unacceptable one only logs. -/
def synAckStep (c : Connection) (s : SegmentIn) : Connection :=
  if c.state = State.SynRcvd then
    if is_between_wrapped ((c.send.una + U32 - 1) % U32) s.acknowledgment_number
        ((c.send.nxt + 1) % U32) then
      { c with state := State.Estab }
    else
      c
  else
    c

/-- Outcome of the `Estab | FinWait1 | FinWait2` ACK-processing block: the
segment may be dropped (early `return Ok`), the process may abort (the
`assert` on an empty payload fails), or processing continues. -/
inductive StepRes where
  | dropped
  | abort
  | cont (c : Connection) (outs : List OutSegment)
deriving DecidableEq

/-- The `Estab | FinWait1 | FinWait2` block of `on_packet`: unacceptable
ACKs drop the segment, otherwise `SND.UNA` is set to the ACK number, a
non-empty payload fails the assertion, and in `Estab` the active close
emits a FIN and moves to `FinWait1`. -/
def estabStep (c : Connection) (s : SegmentIn) : StepRes :=
  if c.state = State.Estab ∨ c.state = State.FinWait1 ∨ c.state = State.FinWait2 then
    if !(is_between_wrapped c.send.una s.acknowledgment_number ((c.send.nxt + 1) % U32)) then
      StepRes.dropped
    else
      let c1 := { c with send := { c.send with una := s.acknowledgment_number } }
      if !s.payload.isEmpty then
        StepRes.abort
      else if c1.state = State.Estab then
        let c2 := { c1 with tcp := { c1.tcp with fin := true } }
        let r := writeSeg c2 []
        StepRes.cont { r.1 with state := State.FinWait1 } [r.2]
      else
        StepRes.cont c1 []
  else
    StepRes.cont c []

/-- The `FinWait1` check of `on_packet`: once `SND.UNA = SND.ISS + 2` both
our SYN and our FIN are acknowledged and the state becomes `FinWait2`. -/
def finWait1Step (c : Connection) : Connection :=
  if c.state = State.FinWait1 ∧ c.send.una = (c.send.iss + 2) % U32 then
    { c with state := State.FinWait2 }
  else
    c

/-- The FIN handling at the tail of `on_packet`: in `FinWait2` the peer's
FIN is acknowledged and the state becomes `TimeWait`; in every other state
of the reduced set the source hits `unreachable`, modelled as `none`. -/
def finStep (c : Connection) (s : SegmentIn) (outs : List OutSegment) :
    Option (Connection × List OutSegment) :=
  if s.fin then
    if c.state = State.FinWait2 then
      let r := writeSeg c []
      some ({ r.1 with state := State.TimeWait }, outs ++ [r.2])
    else
      none
  else
    some (c, outs)

/-- `Connection::on_packet`: sequence-number acceptance (a rejection
answers with an empty segment through the writer), `RCV.NXT` advance, ACK
processing, active close, `FinWait1` promotion, and FIN handling. `none`
models a process abort. -/
def processOne (c : Connection) (s : SegmentIn) : Option (Connection × List OutSegment) :=
  if !(segOkay c s) then
    let r := writeSeg c []
    some (r.1, [r.2])
  else
    let c1 := synAckStep (advanceRecv c s) s
    match estabStep c1 s with
    | StepRes.dropped => some (c1, [])
    | StepRes.abort => none
    | StepRes.cont c2 outs => finStep (finWait1Step c2) s outs

/-- Processing a finite arrival-ordered sequence of inbound segments;
`none` as soon as any segment aborts the process. -/
def processList : Connection → List SegmentIn → Option Connection
  | c, [] => some c
  | c, s :: rest => (processOne c s).bind (fun r => processList r.1 rest)

/-- Sum of the logical lengths of exactly the accepted segments of a run. -/
def acceptedLenSum : Connection → List SegmentIn → Nat
  | _, [] => 0
  | c, s :: rest =>
    (if segOkay c s then seg_len s else 0) +
      (processOne c s).elim 0 (fun r => acceptedLenSum r.1 rest)

/-- Every segment of the run that is accepted arrives in order: its
sequence number equals the connection's `RCV.NXT` at the moment it is
processed. -/
def inOrder : Connection → List SegmentIn → Bool
  | _, [] => true
  | c, s :: rest =>
    (!(segOkay c s) || (s.sequence_number == c.recv.nxt)) &&
      (processOne c s).elim true (fun r => inOrder r.1 rest)

/-- The sequence-number acceptance matrix exactly as the specification
states it, with `RCV.END = RCV.NXT + RCV.WND (mod 2^32)`. Spec-side
definition, to be compared with the source-side `segOkay`. -/
def specAcceptanceMatrix (c : Connection) (s : SegmentIn) : Prop :=
  let slen := seg_len s
  let rcvEnd := (c.recv.nxt + c.recv.wnd) % U32
  (slen = 0 ∧ c.recv.wnd = 0 ∧ s.sequence_number = c.recv.nxt) ∨
    (slen = 0 ∧ 0 < c.recv.wnd ∧
      is_between_wrapped ((c.recv.nxt + U32 - 1) % U32) s.sequence_number rcvEnd = true) ∨
    (0 < slen ∧ 0 < c.recv.wnd ∧
      (is_between_wrapped ((c.recv.nxt + U32 - 1) % U32) s.sequence_number rcvEnd = true ∨
        is_between_wrapped ((c.recv.nxt + U32 - 1) % U32)
          ((s.sequence_number + (slen - 1)) % U32) rcvEnd = true))

/-- Inbound SYN of the passive-open scenario: `seq = 1000`, `win = 4096`,
remote `10.0.0.2:40000`, local `10.0.0.1:443`, empty payload. -/
def synSeg1000 : SegmentIn :=
  { source := [10, 0, 0, 2]
    destination := [10, 0, 0, 1]
    source_port := 40000
    destination_port := 443
    sequence_number := 1000
    acknowledgment_number := 0
    window_size := 4096
    syn := true
    ack := false
    fin := false
    rst := false
    payload := [] }

/-- A TCB as passive open leaves it: `SynRcvd`, `SND.ISS = SND.UNA = 0`,
`SND.NXT = 1`, `RCV.NXT = 1001`, `RCV.WND = 4096`, SYN/FIN cleared and ACK
set on the template. -/
def connSynRcvd : Connection :=
  { state := State.SynRcvd
    send := { iss := 0, una := 0, nxt := 1, wnd := 10, up := false, wl1 := 0, wl2 := 0 }
    recv := { irs := 1000, nxt := 1001, wnd := 4096, up := false }
    ip := { source := [10, 0, 0, 1], destination := [10, 0, 0, 2], ttl := 64, payload_len := 20 }
    tcp := { source_port := 443, destination_port := 40000
             sequence_number := 0, acknowledgment_number := 1001
             syn := false, ack := true, fin := false, rst := false
             window_size := 10, checksum := 0 } }

/-- The handshake-completing ACK: `seq = 1001`, `ack = 1`, empty payload. -/
def ackSeg1 : SegmentIn :=
  { synSeg1000 with syn := false, ack := true
                    sequence_number := 1001, acknowledgment_number := 1 }

/-- An established connection after the full active close of the core:
`SND.UNA = 1`, `SND.NXT = 2`, `RCV.NXT = 1001`, `RCV.WND = 4096`. -/
def connEstab : Connection :=
  { connSynRcvd with state := State.Estab
                     send := { connSynRcvd.send with una := 1, nxt := 2 } }

/-- An out-of-window segment for `connEstab`: `seq = 9000`, one payload
byte, well outside `[1001, 1001 + 4096)`. -/
def oowSeg : SegmentIn :=
  { ackSeg1 with sequence_number := 9000, payload := [7] }

/-- The wrap-around connection of the spec's scenario 6:
`RCV.NXT = 0xFFFFFFF0`, `RCV.WND = 32`. -/
def wrapConn : Connection :=
  { connEstab with recv := { connEstab.recv with nxt := 4294967280, wnd := 32 } }

/-- The wrap-around segment: `seq = 0xFFFFFFF0`, 16 payload bytes, with an
acknowledgment number the ACK check drops so that processing returns. -/
def wrapSeg : SegmentIn :=
  { ackSeg1 with sequence_number := 4294967280, acknowledgment_number := 100
                 payload := [1, 2, 3, 4, 5, 6, 7, 8, 9, 10, 11, 12, 13, 14, 15, 16] }

/-- In-window but out-of-order segment for `connEstab`: accepted with
`seq = 1005 ≠ RCV.NXT = 1001`, one payload byte, stale ACK. -/
def gapSeg : SegmentIn :=
  { ackSeg1 with sequence_number := 1005, acknowledgment_number := 50, payload := [7] }

/-- In-order counterpart of `gapSeg`: `seq = RCV.NXT = 1001`. -/
def inOrderSeg : SegmentIn :=
  { ackSeg1 with sequence_number := 1001, acknowledgment_number := 50, payload := [42] }

/-- A connection in `FinWait1` with `SND.UNA = 1`, `SND.NXT = 2`. -/
def connFinWait1 : Connection :=
  { connEstab with state := State.FinWait1 }

/-- An accepted FIN segment whose acknowledgment number 10 is outside
`(SND.UNA, SND.NXT + 1] = (1, 3]`, so the ACK check drops it. -/
def finBadAckSeg : SegmentIn :=
  { ackSeg1 with fin := true, acknowledgment_number := 10 }

/-- A connection in `TimeWait`. -/
def connTimeWait : Connection :=
  { connEstab with state := State.TimeWait }

/-- An accepted FIN segment for `connTimeWait`. -/
def finSegTW : SegmentIn :=
  { ackSeg1 with fin := true, acknowledgment_number := 2 }

/-- `connTimeWait` after the `RCV.NXT` advance for `finSegTW`, the value the
ACK-processing block hands on unchanged. -/
def connTimeWait1 : Connection :=
  { connTimeWait with recv := { connTimeWait.recv with nxt := 1002 } }

/-- An in-window segment for `connEstab` carrying one data byte and the
acceptable acknowledgment number 2. -/
def dataSeg : SegmentIn :=
  { ackSeg1 with acknowledgment_number := 2, payload := [9] }

lemma is_between_wrapped_eq (a b c : Nat) (ha : a < U32) (hb : b < U32) (hc : c < U32) :
    is_between_wrapped a b c = true ↔
      (0 < (b + U32 - a) % U32 ∧ (b + U32 - a) % U32 < (c + U32 - a) % U32) := by
  unfold is_between_wrapped
  simp only [U32] at *
  split_ifs with h1 h2
  · simp only [Bool.false_eq_true, false_iff]
    omega
  · simp only [Bool.not_eq_true', Bool.and_eq_false_iff, decide_eq_false_iff_not, not_le, ge_iff_le,
      decide_eq_true_eq, Bool.not_and, Bool.not_eq_true, ← Bool.decide_and, decide_eq_false_iff_not,
      not_and, not_le]
    constructor
    · intro h
      omega
    · intro h
      omega
  · simp only [Bool.and_eq_true, decide_eq_true_eq, gt_iff_lt]
    constructor
    · intro h
      omega
    · intro h
      omega

lemma mod_lt_U32 (n : Nat) : n % U32 < U32 := by
  have : 0 < U32 := by simp [U32]
  exact Nat.mod_lt _ this

/-- Claim C8: the wrap-safe predicate is translation-invariant: adding any
constant `k` to all three arguments (mod 2^32) preserves its value. -/
theorem C8_translation_invariant (a b c k : Nat)
    (ha : a < U32) (hb : b < U32) (hc : c < U32) (hk : k < U32) :
    is_between_wrapped ((a + k) % U32) ((b + k) % U32) ((c + k) % U32) =
      is_between_wrapped a b c := by
  have h1 := is_between_wrapped_eq ((a + k) % U32) ((b + k) % U32) ((c + k) % U32)
    (mod_lt_U32 _) (mod_lt_U32 _) (mod_lt_U32 _)
  have h2 := is_between_wrapped_eq a b c ha hb hc
  have e1 : ((b + k) % U32 + U32 - (a + k) % U32) % U32 = (b + U32 - a) % U32 := by
    simp only [U32] at *
    omega
  have e2 : ((c + k) % U32 + U32 - (a + k) % U32) % U32 = (c + U32 - a) % U32 := by
    simp only [U32] at *
    omega
  rw [e1, e2] at h1
  rw [← h2] at h1
  exact Bool.eq_iff_iff.mpr h1

/-- Closed witness for C8 at `a = 5`, `b = 10`, `c = 20`, `k = 2^32 - 6`,
a translation that wraps all three points across zero. -/
theorem C8_translation_invariant_witness :
    (5 < U32 ∧ 10 < U32 ∧ 20 < U32 ∧ 4294967290 < U32) ∧
      is_between_wrapped ((5 + 4294967290) % U32) ((10 + 4294967290) % U32)
          ((20 + 4294967290) % U32) =
        is_between_wrapped 5 10 20 :=
  ⟨by decide, C8_translation_invariant 5 10 20 4294967290
    (by decide) (by decide) (by decide) (by decide)⟩

/-- Claim C1: for every inbound segment with SYN set (to a quad with no
existing connection, so `accept` runs), passive open creates a TCB in
`SynRcvd` with `RCV.IRS = S`, `RCV.NXT = S + 1 (mod 2^32)`, `RCV.WND` the
segment's window, `SND.ISS = SND.UNA = 0`, and emits exactly one segment
with SYN and ACK set, sequence number 0, acknowledgment number `S + 1`,
and empty payload, after which `SND.NXT = 1`. -/
theorem C1_passive_open (s : SegmentIn) (hsyn : s.syn = true) :
    ∃ c out, accept s = some (c, out) ∧
      c.state = State.SynRcvd ∧
      c.recv.irs = s.sequence_number ∧
      c.recv.nxt = (s.sequence_number + 1) % U32 ∧
      c.recv.wnd = s.window_size ∧
      c.send.iss = 0 ∧
      c.send.una = 0 ∧
      c.send.nxt = 1 ∧
      out.tcp.syn = true ∧
      out.tcp.ack = true ∧
      out.tcp.sequence_number = 0 ∧
      out.tcp.acknowledgment_number = (s.sequence_number + 1) % U32 ∧
      out.payload = ([] : List Nat) := by
  unfold accept
  rw [hsyn]
  exact ⟨_, _, rfl, rfl, rfl, rfl, rfl, rfl, rfl, rfl, rfl, rfl, rfl, rfl, rfl⟩

/-- Closed witness for C1: the passive-open scenario, a SYN with
`seq = 1000` and `win = 4096`. -/
theorem C1_passive_open_witness :
    synSeg1000.syn = true ∧
      ∃ c out, accept synSeg1000 = some (c, out) ∧
        c.state = State.SynRcvd ∧
        c.recv.irs = synSeg1000.sequence_number ∧
        c.recv.nxt = (synSeg1000.sequence_number + 1) % U32 ∧
        c.recv.wnd = synSeg1000.window_size ∧
        c.send.iss = 0 ∧
        c.send.una = 0 ∧
        c.send.nxt = 1 ∧
        out.tcp.syn = true ∧
        out.tcp.ack = true ∧
        out.tcp.sequence_number = 0 ∧
        out.tcp.acknowledgment_number = (synSeg1000.sequence_number + 1) % U32 ∧
        out.payload = ([] : List Nat) :=
  ⟨rfl, C1_passive_open synSeg1000 rfl⟩

/-- Claim C3: every call of the segment writer emits a segment whose
sequence number is the `SND.NXT` recorded before emission and whose
acknowledgment number is `RCV.NXT`; afterwards `SND.NXT` has advanced
(mod 2^32) by exactly the number of payload bytes written plus one for a
set SYN flag plus one for a set FIN flag, and both flags are clear on the
template. -/
theorem C3_writer_advance (c : Connection) (p : List Nat) :
    ((writeSeg c p).2).tcp.sequence_number = c.send.nxt ∧
      ((writeSeg c p).2).tcp.acknowledgment_number = c.recv.nxt ∧
      ((writeSeg c p).1).send.nxt =
        (c.send.nxt + ((writeSeg c p).2).payload.length +
          (if c.tcp.syn then 1 else 0) + (if c.tcp.fin then 1 else 0)) % U32 ∧
      ((writeSeg c p).1).tcp.syn = false ∧
      ((writeSeg c p).1).tcp.fin = false := by
  unfold writeSeg
  by_cases hs : c.tcp.syn <;> by_cases hf : c.tcp.fin <;>
    simp [hs, hf, List.length_take]

/-- Claim C2: `on_packet` accepts inbound segments exactly per the RFC-793
acceptance matrix (`segOkay` agrees with the spec's matrix on every
connection and segment), and in particular the wrap-around scenario with
`RCV.NXT = 0xFFFFFFF0`, `RCV.WND = 32` accepts a 16-byte segment at
`seq = 0xFFFFFFF0` and advances `RCV.NXT` to 0. -/
theorem C2_acceptance_matrix :
    (∀ c s, segOkay c s = true ↔ specAcceptanceMatrix c s) ∧
      segOkay wrapConn wrapSeg = true ∧
      processOne wrapConn wrapSeg =
        some ({ wrapConn with recv := { wrapConn.recv with nxt := 0 } }, []) := by
  refine ⟨fun c s => ?_, by decide, by decide⟩
  unfold segOkay specAcceptanceMatrix
  rcases Nat.eq_zero_or_pos (seg_len s) with h0 | h0 <;>
    rcases Nat.eq_zero_or_pos c.recv.wnd with w0 | w0
  · by_cases hq : s.sequence_number = c.recv.nxt <;> simp [h0, w0, hq]
  · simp [h0, w0.ne']
    by_cases hb : is_between_wrapped ((c.recv.nxt + U32 - 1) % U32) s.sequence_number
        ((c.recv.nxt + c.recv.wnd) % U32) <;> simp [hb, w0]
  · simp [h0.ne', w0]
  · simp [h0.ne', w0.ne', h0, w0]

/-- Claim C4 fails on the code: `Connection::write` passes the empty slice
(`&[]`) to `calc_checksum_ipv4` instead of the written payload, so for a
call with the non-empty payload `[1]` the checksum field written into the
outbound header is the checksum over the empty payload and differs from
the RFC-793 checksum over the payload bytes actually written. -/
theorem C4_checksum_bug :
    ((writeSeg connEstab [1]).2).payload = [1] ∧
      ((writeSeg connEstab [1]).2).tcp.checksum =
        tcp_calc_checksum_ipv4 ((writeSeg connEstab [1]).2).ip
          ((writeSeg connEstab [1]).2).tcp [] ∧
      ((writeSeg connEstab [1]).2).tcp.checksum ≠
        tcp_calc_checksum_ipv4 ((writeSeg connEstab [1]).2).ip
          ((writeSeg connEstab [1]).2).tcp ((writeSeg connEstab [1]).2).payload := by
  refine ⟨by decide, ?_, by decide⟩
  decide

lemma writeSeg_fst_recv (c : Connection) (p : List Nat) :
    ((writeSeg c p).1).recv = c.recv :=
  rfl

lemma writeSeg_fst_state (c : Connection) (p : List Nat) :
    ((writeSeg c p).1).state = c.state :=
  rfl

lemma synAckStep_recv (c : Connection) (s : SegmentIn) :
    (synAckStep c s).recv = c.recv := by
  unfold synAckStep
  split_ifs <;> rfl

lemma synAckStep_send (c : Connection) (s : SegmentIn) :
    (synAckStep c s).send = c.send := by
  unfold synAckStep
  split_ifs <;> rfl

lemma advanceRecv_recv_nxt (c : Connection) (s : SegmentIn) :
    (advanceRecv c s).recv.nxt = (s.sequence_number + seg_len s) % U32 :=
  rfl

lemma estabStep_cont_recv (c : Connection) (s : SegmentIn) (c2 : Connection)
    (outs : List OutSegment) (h : estabStep c s = StepRes.cont c2 outs) :
    c2.recv = c.recv := by
  unfold estabStep at h
  simp only [] at h
  repeat' split at h
  all_goals first
    | (cases h; rfl)
    | exact StepRes.noConfusion h

lemma finWait1Step_recv (c : Connection) :
    (finWait1Step c).recv = c.recv := by
  unfold finWait1Step
  split_ifs <;> rfl

lemma finStep_recv (c : Connection) (s : SegmentIn) (outs : List OutSegment)
    (r : Connection × List OutSegment) (h : finStep c s outs = some r) :
    r.1.recv = c.recv := by
  unfold finStep at h
  split_ifs at h <;> first
    | (cases h; rfl)
    | exact Option.noConfusion h

/-- `RCV.NXT` after one `on_packet` call: advanced to `seq + seg_len` on
acceptance, untouched on rejection. -/
lemma processOne_rcv_nxt (c : Connection) (s : SegmentIn)
    (r : Connection × List OutSegment) (h : processOne c s = some r) :
    r.1.recv.nxt =
      if segOkay c s then (s.sequence_number + seg_len s) % U32 else c.recv.nxt := by
  unfold processOne at h
  by_cases hok : segOkay c s
  · simp only [hok, Bool.not_true, Bool.false_eq_true, if_false, if_true] at h ⊢
    cases hE : estabStep (synAckStep (advanceRecv c s) s) s with
    | dropped =>
      rw [hE] at h
      cases h
      rw [synAckStep_recv, advanceRecv_recv_nxt]
    | abort =>
      rw [hE] at h
      exact Option.noConfusion h
    | cont c2 outs =>
      rw [hE] at h
      have h1 := finStep_recv _ _ _ _ h
      rw [h1, finWait1Step_recv, estabStep_cont_recv _ _ _ _ hE,
        synAckStep_recv, advanceRecv_recv_nxt]
  · simp only [hok, Bool.not_false, if_true, Bool.false_eq_true, if_false] at h ⊢
    cases h
    rw [writeSeg_fst_recv]


lemma synAckStep_promote (c : Connection) (s : SegmentIn)
    (hst : c.state = State.SynRcvd)
    (hbet : is_between_wrapped ((c.send.una + U32 - 1) % U32) s.acknowledgment_number
      ((c.send.nxt + 1) % U32) = true) :
    synAckStep c s = { c with state := State.Estab } := by
  unfold synAckStep
  rw [if_pos hst, if_pos hbet]

lemma synAckStep_id (c : Connection) (s : SegmentIn)
    (hst : c.state ≠ State.SynRcvd) :
    synAckStep c s = c := by
  unfold synAckStep
  rw [if_neg hst]

lemma estabStep_close (c : Connection) (s : SegmentIn)
    (hst : c.state = State.Estab)
    (hbet : (!is_between_wrapped c.send.una s.acknowledgment_number
      ((c.send.nxt + 1) % U32)) = false)
    (hpay : s.payload.isEmpty = true) :
    estabStep c s =
      StepRes.cont
        { (writeSeg { c with
            send := { c.send with una := s.acknowledgment_number },
            tcp := { c.tcp with fin := true } } []).1 with state := State.FinWait1 }
        [(writeSeg { c with
            send := { c.send with una := s.acknowledgment_number },
            tcp := { c.tcp with fin := true } } []).2] := by
  unfold estabStep
  rw [if_pos (Or.inl hst)]
  rw [if_neg (by rw [hbet]; decide)]
  simp only []
  rw [if_neg (by rw [hpay]; decide)]
  rw [if_pos (show ({ c with
    send := { c.send with una := s.acknowledgment_number } } : Connection).state =
      State.Estab from hst)]

lemma estabStep_abort (c : Connection) (s : SegmentIn)
    (hin : c.state = State.Estab ∨ c.state = State.FinWait1 ∨ c.state = State.FinWait2)
    (hbet : (!is_between_wrapped c.send.una s.acknowledgment_number
      ((c.send.nxt + 1) % U32)) = false)
    (hpay : s.payload.isEmpty = false) :
    estabStep c s = StepRes.abort := by
  unfold estabStep
  rw [if_pos hin]
  rw [if_neg (by rw [hbet]; decide)]
  simp only []
  rw [if_pos (by rw [hpay]; decide)]

lemma finWait1Step_id (c : Connection)
    (h : ¬(c.state = State.FinWait1 ∧ c.send.una = (c.send.iss + 2) % U32)) :
    finWait1Step c = c := by
  unfold finWait1Step
  rw [if_neg h]

lemma finStep_nofin (c : Connection) (s : SegmentIn) (outs : List OutSegment)
    (h : s.fin = false) :
    finStep c s outs = some (c, outs) := by
  unfold finStep
  rw [if_neg (by rw [h]; decide)]

lemma processOne_reject (c : Connection) (s : SegmentIn)
    (hok : segOkay c s = false) :
    processOne c s = some ((writeSeg c []).1, [(writeSeg c []).2]) := by
  unfold processOne
  rw [if_pos (by rw [hok]; decide)]

lemma processOne_abort (c : Connection) (s : SegmentIn)
    (hok : segOkay c s = true)
    (hE : estabStep (synAckStep (advanceRecv c s) s) s = StepRes.abort) :
    processOne c s = none := by
  unfold processOne
  rw [if_neg (by rw [hok]; decide)]
  simp only []
  rw [hE]

lemma finWait1Step_no_promote (c : Connection)
    (h : c.send.una ≠ (c.send.iss + 2) % U32) :
    finWait1Step c = c := by
  unfold finWait1Step
  rw [if_neg (fun hcon => h hcon.2)]

lemma writeSeg_fst_una (c : Connection) (p : List Nat) :
    ((writeSeg c p).1).send.una = c.send.una :=
  rfl

lemma writeSeg_nxt (c : Connection) (p : List Nat) :
    ((writeSeg c p).1).send.nxt =
      (c.send.nxt + min 1460 p.length + (if c.tcp.syn then 1 else 0) +
        (if c.tcp.fin then 1 else 0)) % U32 := by
  unfold writeSeg
  by_cases hs : c.tcp.syn <;> by_cases hf : c.tcp.fin <;>
    simp [hs, hf, ipHeaderLen, tcpHeaderLen]

/-- Claim C5: from a passive-open `SynRcvd` TCB (`SND.UNA = 0`,
`SND.NXT = 1`, `SND.ISS = 0`, template flags SYN/FIN clear and ACK set),
an in-window inbound segment with ACK set, acknowledgment number 1 and
empty payload moves the state to `Estab` and then immediately to
`FinWait1`, emitting exactly one segment with FIN and ACK set, sequence
number 1 and acknowledgment number `RCV.NXT`, leaving `SND.UNA = 1` and
`SND.NXT = 2`. -/
theorem C5_handshake_then_close (c : Connection) (s : SegmentIn)
    (hst : c.state = State.SynRcvd)
    (huna : c.send.una = 0) (hnxt : c.send.nxt = 1) (hiss : c.send.iss = 0)
    (htsyn : c.tcp.syn = false) (htfin : c.tcp.fin = false) (htack : c.tcp.ack = true)
    (hok : segOkay c s = true) (hackflag : s.ack = true)
    (hackn : s.acknowledgment_number = 1) (hpay : s.payload = [])
    (hsyn : s.syn = false) (hfin : s.fin = false) :
    ∃ c' out, processOne c s = some (c', [out]) ∧
      c'.state = State.FinWait1 ∧
      c'.send.una = 1 ∧
      c'.send.nxt = 2 ∧
      out.tcp.fin = true ∧
      out.tcp.ack = true ∧
      out.tcp.syn = false ∧
      out.tcp.sequence_number = 1 ∧
      out.tcp.acknowledgment_number = c'.recv.nxt ∧
      out.payload = ([] : List Nat) := by
  have hbet1 : is_between_wrapped (((advanceRecv c s).send.una + U32 - 1) % U32)
      s.acknowledgment_number (((advanceRecv c s).send.nxt + 1) % U32) = true := by
    rw [show (advanceRecv c s).send = c.send from rfl, huna, hnxt, hackn]
    decide
  have h1 := synAckStep_promote (advanceRecv c s) s hst hbet1
  have hbet2 : (!is_between_wrapped c.send.una s.acknowledgment_number
      ((c.send.nxt + 1) % U32)) = false := by
    rw [huna, hnxt, hackn]
    decide
  have hpay2 : s.payload.isEmpty = true := by rw [hpay]; rfl
  have h2 := estabStep_close { advanceRecv c s with state := State.Estab } s rfl hbet2 hpay2
  unfold processOne
  rw [if_neg (by rw [hok]; decide)]
  simp only []
  rw [h1, h2]
  show ∃ c' out, finStep (finWait1Step _) s _ = some (c', [out]) ∧ _
  have hne : s.acknowledgment_number ≠ (c.send.iss + 2) % U32 := by
    rw [hackn, hiss]
    decide
  rw [finWait1Step_no_promote _ ?hne]
  case hne => exact hne
  rw [finStep_nofin _ _ _ hfin]
  refine ⟨_, _, rfl, rfl, hackn, ?_, rfl, htack, htsyn, hnxt, rfl, rfl⟩
  rw [show ({ (writeSeg { advanceRecv c s with
        state := State.Estab,
        send := { (advanceRecv c s).send with una := s.acknowledgment_number },
        tcp := { (advanceRecv c s).tcp with fin := true } } []).1 with
      state := State.FinWait1 } : Connection).send.nxt =
    ((writeSeg { advanceRecv c s with
        state := State.Estab,
        send := { (advanceRecv c s).send with una := s.acknowledgment_number },
        tcp := { (advanceRecv c s).tcp with fin := true } } []).1).send.nxt from rfl]
  rw [writeSeg_nxt]
  dsimp only
  rw [show (advanceRecv c s).send = c.send from rfl,
    show (advanceRecv c s).tcp = c.tcp from rfl, hnxt, htsyn]
  decide

/-- Closed witness for C5: the handshake-completion scenario on the
passive-open TCB, inbound `ACK, seq = 1001, ack = 1`, empty payload. -/
theorem C5_handshake_then_close_witness :
    (connSynRcvd.state = State.SynRcvd ∧ connSynRcvd.send.una = 0 ∧
      connSynRcvd.send.nxt = 1 ∧ connSynRcvd.send.iss = 0 ∧
      connSynRcvd.tcp.syn = false ∧ connSynRcvd.tcp.fin = false ∧
      connSynRcvd.tcp.ack = true ∧ segOkay connSynRcvd ackSeg1 = true ∧
      ackSeg1.ack = true ∧ ackSeg1.acknowledgment_number = 1 ∧
      ackSeg1.payload = [] ∧ ackSeg1.syn = false ∧ ackSeg1.fin = false) ∧
      ∃ c' out, processOne connSynRcvd ackSeg1 = some (c', [out]) ∧
        c'.state = State.FinWait1 ∧
        c'.send.una = 1 ∧
        c'.send.nxt = 2 ∧
        out.tcp.fin = true ∧
        out.tcp.ack = true ∧
        out.tcp.syn = false ∧
        out.tcp.sequence_number = 1 ∧
        out.tcp.acknowledgment_number = c'.recv.nxt ∧
        out.payload = ([] : List Nat) :=
  ⟨by decide,
    C5_handshake_then_close connSynRcvd ackSeg1 rfl rfl rfl rfl rfl rfl rfl
      (by decide) rfl rfl rfl rfl rfl⟩

/-- Claim C6: whenever `on_packet` rejects a segment under the
sequence-number test, it emits exactly one pure ACK (empty payload,
sequence number `SND.NXT`, acknowledgment number `RCV.NXT`) and all
connection variables — state, `SND.UNA`, `SND.NXT`, `RCV.NXT`, `RCV.WND` —
are unchanged. The template-flag hypotheses record the state the template
is in whenever `on_packet` runs (SYN/FIN always cleared by the writer,
ACK set since the SYN-ACK, RST never set). -/
theorem C6_reject_pure_ack (c : Connection) (s : SegmentIn)
    (hok : segOkay c s = false)
    (hsy : c.tcp.syn = false) (hfi : c.tcp.fin = false)
    (hac : c.tcp.ack = true) (hrs : c.tcp.rst = false)
    (hb : c.send.nxt < U32) :
    ∃ c' out, processOne c s = some (c', [out]) ∧
      out.payload = ([] : List Nat) ∧
      out.tcp.sequence_number = c.send.nxt ∧
      out.tcp.acknowledgment_number = c.recv.nxt ∧
      out.tcp.ack = true ∧
      out.tcp.syn = false ∧
      out.tcp.fin = false ∧
      out.tcp.rst = false ∧
      c'.state = c.state ∧
      c'.send.una = c.send.una ∧
      c'.send.nxt = c.send.nxt ∧
      c'.recv.nxt = c.recv.nxt ∧
      c'.recv.wnd = c.recv.wnd := by
  rw [processOne_reject c s hok]
  refine ⟨_, _, rfl, rfl, rfl, rfl, hac, hsy, hfi, hrs, rfl, rfl, ?_, rfl, rfl⟩
  rw [writeSeg_nxt, hsy, hfi]
  simp [Nat.mod_eq_of_lt hb]

/-- Closed witness for C6: the out-of-window scenario, `seq = 9000` with one
payload byte against `RCV.NXT = 1001`, `RCV.WND = 4096`. -/
theorem C6_reject_pure_ack_witness :
    (segOkay connEstab oowSeg = false ∧ connEstab.tcp.syn = false ∧
      connEstab.tcp.fin = false ∧ connEstab.tcp.ack = true ∧
      connEstab.tcp.rst = false ∧ connEstab.send.nxt < U32) ∧
      ∃ c' out, processOne connEstab oowSeg = some (c', [out]) ∧
        out.payload = ([] : List Nat) ∧
        out.tcp.sequence_number = connEstab.send.nxt ∧
        out.tcp.acknowledgment_number = connEstab.recv.nxt ∧
        out.tcp.ack = true ∧
        out.tcp.syn = false ∧
        out.tcp.fin = false ∧
        out.tcp.rst = false ∧
        c'.state = connEstab.state ∧
        c'.send.una = connEstab.send.una ∧
        c'.send.nxt = connEstab.send.nxt ∧
        c'.recv.nxt = connEstab.recv.nxt ∧
        c'.recv.wnd = connEstab.recv.wnd :=
  ⟨by decide,
    C6_reject_pure_ack connEstab oowSeg (by decide) rfl rfl rfl rfl (by decide)⟩

/-- Claim C10 (implicit): in `Estab`, `FinWait1` or `FinWait2`, an inbound
segment that passes the sequence-number test and carries an acceptable
acknowledgment (`between(SND.UNA, ackn, SND.NXT + 1)`) but has a non-empty
payload fails the `assert!(data.is_empty())` and aborts the process — peer
data is never delivered or silently discarded. -/
theorem C10_data_asserts_abort (c : Connection) (s : SegmentIn)
    (hst : c.state = State.Estab ∨ c.state = State.FinWait1 ∨ c.state = State.FinWait2)
    (hok : segOkay c s = true)
    (hack : is_between_wrapped c.send.una s.acknowledgment_number
      ((c.send.nxt + 1) % U32) = true)
    (hpay : s.payload ≠ []) :
    processOne c s = none := by
  have hns : (advanceRecv c s).state ≠ State.SynRcvd := by
    show c.state ≠ State.SynRcvd
    rcases hst with h | h | h <;> rw [h] <;> decide
  have h1 := synAckStep_id (advanceRecv c s) s hns
  have hpayF : s.payload.isEmpty = false := by
    cases hpl : s.payload with
    | nil => exact absurd hpl hpay
    | cons a t => rfl
  have hbet : (!is_between_wrapped (advanceRecv c s).send.una s.acknowledgment_number
      (((advanceRecv c s).send.nxt + 1) % U32)) = false := by
    rw [show (advanceRecv c s).send = c.send from rfl, hack]
    rfl
  have h2 := estabStep_abort (advanceRecv c s) s hst hbet hpayF
  exact processOne_abort c s hok (by rw [h1]; exact h2)

/-- Closed witness for C10: `connEstab` receiving an in-window segment with
one data byte and the acceptable acknowledgment number 2. -/
theorem C10_data_asserts_abort_witness :
    ((connEstab.state = State.Estab ∨ connEstab.state = State.FinWait1 ∨
        connEstab.state = State.FinWait2) ∧
      segOkay connEstab dataSeg = true ∧
      is_between_wrapped connEstab.send.una dataSeg.acknowledgment_number
        ((connEstab.send.nxt + 1) % U32) = true ∧
      dataSeg.payload ≠ []) ∧
      processOne connEstab dataSeg = none :=
  ⟨by decide,
    C10_data_asserts_abort connEstab dataSeg (Or.inl rfl) (by decide) (by decide)
      (by decide)⟩

/-- Counterexample to C9 as stated: in `FinWait1`, an accepted FIN segment
whose acknowledgment number is unacceptable hits the early drop in the
ACK-processing block, so `on_packet` returns normally instead of aborting,
although the state after ACK processing (`FinWait1`) is not `FinWait2`. -/
theorem C9_counterexample :
    segOkay connFinWait1 finBadAckSeg = true ∧
      finBadAckSeg.fin = true ∧
      (synAckStep (advanceRecv connFinWait1 finBadAckSeg) finBadAckSeg).state ≠
        State.FinWait2 ∧
      estabStep (synAckStep (advanceRecv connFinWait1 finBadAckSeg) finBadAckSeg)
        finBadAckSeg = StepRes.dropped ∧
      processOne connFinWait1 finBadAckSeg ≠ none := by
  decide

/-- Claim C9 as amended: if `on_packet` accepts a FIN-bearing segment and
the ACK-processing block does not drop it (the early return for an
unacceptable ACK in `Estab`/`FinWait1`/`FinWait2`), then whenever the state
after the ACK-processing steps — including the `FinWait1 → FinWait2`
promotion — is not `FinWait2`, processing aborts the process (the
`unreachable` arm, or already the payload assertion) rather than
returning. -/
theorem C9_fin_outside_finwait2_aborts (c : Connection) (s : SegmentIn)
    (hok : segOkay c s = true) (hfin : s.fin = true)
    (hnd : estabStep (synAckStep (advanceRecv c s) s) s ≠ StepRes.dropped)
    (hfw : ∀ c2 outs,
      estabStep (synAckStep (advanceRecv c s) s) s = StepRes.cont c2 outs →
      (finWait1Step c2).state ≠ State.FinWait2) :
    processOne c s = none := by
  unfold processOne
  rw [if_neg (by rw [hok]; decide)]
  simp only []
  cases hE : estabStep (synAckStep (advanceRecv c s) s) s with
  | dropped => exact absurd hE hnd
  | abort => rfl
  | cont c2 outs =>
    have hne := hfw c2 outs hE
    show finStep (finWait1Step c2) s outs = none
    unfold finStep
    rw [if_pos hfin, if_neg hne]

/-- Closed witness for the amended C9: a `TimeWait` connection receiving an
accepted FIN hits the `unreachable` arm and the process aborts. -/
theorem C9_fin_outside_finwait2_aborts_witness :
    (segOkay connTimeWait finSegTW = true ∧ finSegTW.fin = true) ∧
      processOne connTimeWait finSegTW = none :=
  ⟨by decide,
    C9_fin_outside_finwait2_aborts connTimeWait finSegTW (by decide) rfl
      (by decide)
      (fun c2 outs h => by
        have hcon : StepRes.cont c2 outs = StepRes.cont connTimeWait1 [] :=
          h.symm.trans (by decide)
        cases hcon
        decide)⟩

/-- Counterexample to C7 as stated: an accepted in-window segment with
`seq = 1005 ≠ RCV.NXT = 1001` and `seg_len = 1` leaves `RCV.NXT = 1006`
(the code sets `RCV.NXT ← seq + seg_len`), not
`initial RCV.NXT + Σ seg_len = 1002`. -/
theorem C7_counterexample :
    segOkay connEstab gapSeg = true ∧
      processList connEstab [gapSeg] =
        some { connEstab with recv := { connEstab.recv with nxt := 1006 } } ∧
      (1006 : Nat) ≠ (connEstab.recv.nxt + acceptedLenSum connEstab [gapSeg]) % U32 := by
  decide

/-- Claim C7 as amended: for every run of `on_packet` that does not abort,
if every accepted segment arrives in order (its sequence number equals the
connection's `RCV.NXT` at the moment it is processed), then the final
`RCV.NXT` equals the initial `RCV.NXT` plus the sum of `seg_len` over
exactly the accepted segments, mod 2^32. -/
theorem C7_rcv_nxt_sum (ss : List SegmentIn) :
    ∀ c c' : Connection, c.recv.nxt < U32 → inOrder c ss = true →
      processList c ss = some c' →
      c'.recv.nxt = (c.recv.nxt + acceptedLenSum c ss) % U32 := by
  induction ss with
  | nil =>
    intro c c' hb _ h
    simp only [processList, Option.some.injEq] at h
    subst h
    simp only [acceptedLenSum, Nat.add_zero]
    exact (Nat.mod_eq_of_lt hb).symm
  | cons s rest ih =>
    intro c c' hb hord h
    simp only [processList] at h
    simp only [inOrder] at hord
    cases hp : processOne c s with
    | none =>
      rw [hp] at h
      exact Option.noConfusion h
    | some r =>
      rw [hp] at h hord
      simp only [Option.some_bind] at h
      simp only [Option.elim_some, Bool.and_eq_true, Bool.or_eq_true,
        Bool.not_eq_true', beq_iff_eq] at hord
      have hrec := processOne_rcv_nxt c s r hp
      have hb' : r.1.recv.nxt < U32 := by
        rw [hrec]
        split
        · exact Nat.mod_lt _ (by decide)
        · exact hb
      have hmain := ih r.1 c' hb' hord.2 h
      simp only [acceptedLenSum]
      rw [hp]
      simp only [Option.elim_some]
      by_cases hok : segOkay c s = true
      · have hseq : s.sequence_number = c.recv.nxt := by
          rcases hord.1 with hfalse | hgood
          · rw [hok] at hfalse
            exact absurd hfalse (by decide)
          · exact hgood
        rw [if_pos hok] at hrec
        rw [if_pos hok, hmain, hrec, hseq]
        simp only [U32]
        omega
      · rw [if_neg hok] at hrec
        rw [if_neg hok, hmain, hrec]
        simp

/-- Closed witness for the amended C7: one in-order accepted segment of
logical length 1 advances `RCV.NXT` from 1001 to 1002. -/
theorem C7_rcv_nxt_sum_witness :
    (connEstab.recv.nxt < U32 ∧ inOrder connEstab [inOrderSeg] = true ∧
      processList connEstab [inOrderSeg] =
        some { connEstab with recv := { connEstab.recv with nxt := 1002 } }) ∧
      ({ connEstab with recv := { connEstab.recv with nxt := 1002 } } : Connection).recv.nxt =
        (connEstab.recv.nxt + acceptedLenSum connEstab [inOrderSeg]) % U32 :=
  ⟨by decide,
    C7_rcv_nxt_sum [inOrderSeg] connEstab
      { connEstab with recv := { connEstab.recv with nxt := 1002 } }
      (by decide) (by decide) (by decide)⟩
